import Mathlib

/-!
Shallow embedding of the live transcription relay implemented in the
`setupDeepgramWebSocket` connection handler (src/unnamed/part_005).

The handler keeps, per client connection, a nullable upstream socket
variable `deepgramWs` and a string `fullTranscript`, and reacts to
events arriving on the client socket (text control frames, binary audio
frames, close, error), on the upstream Deepgram socket (open, message,
error, close) and from the drain timer scheduled on `stop`.  We model
it as a pure step function from a session state and one event to the
next state plus the list of side-effecting actions the handler performs
(messages sent to the client, upstream opens/sends/closes).
-/

namespace DeepgramRelay

/-- The `readyState` values of a `ws` WebSocket. -/
inductive ReadyState
  | CONNECTING
  | OPEN
  | CLOSING
  | CLOSED
  deriving DecidableEq

/-- One upstream Deepgram socket object.  The `id` is a ghost tag that
lets distinct socket objects created by successive `start` messages be
told apart; the code itself distinguishes them only by object identity. -/
structure Upstream where
  id : Nat
  readyState : ReadyState
  deriving DecidableEq

/-- The mutable closure state of one client connection in the handler:
the nullable `deepgramWs` variable and the `fullTranscript` string.
`nextId` is a ghost counter used to tag socket objects as they are
created. -/
structure Session where
  deepgramWs : Option Upstream
  fullTranscript : String
  nextId : Nat
  deriving DecidableEq

/-- State when a client connects: `deepgramWs = null`, `fullTranscript = ""`. -/
def initSession : Session := ⟨none, "", 0⟩

/-- A parsed JSON control message from the client.  `start` carries the
optional `language` field; any other `type` value falls in `other`
(the handler has no branch for it). -/
inductive ControlMsg
  | start (language : Option String)
  | stop
  | other
  deriving DecidableEq

/-- The events a connection handler reacts to.  `clientText none` is a
text frame that failed JSON parsing (caught and ignored).  `dgResult`
is a parsed Deepgram `Results` message carrying the first alternative
transcript and the `is_final` / `speech_final` flags.  `drainTimer` is
the 1500 ms timer scheduled by the `stop` branch firing. -/
inductive Event
  | clientText (msg : Option ControlMsg)
  | clientBinary
  | clientClose
  | clientError
  | dgOpen
  | dgResult (transcript : String) (isFinal speechFinal : Bool)
  | dgError (message : String)
  | dgClose
  | drainTimer
  deriving DecidableEq

/-- JSON messages the handler sends to the client. -/
inductive OutMsg
  | ready
  | transcriptMsg (transcript : String) (isFinal speechFinal : Bool) (fullTranscript : String)
  | stopped (fullTranscript : String)
  | errorMsg (message : String)
  deriving DecidableEq

/-- Side effects the handler performs, in order. -/
inductive Action
  | sendClient (m : OutMsg)
  | openUpstream (id : Nat) (language : String)
  | sendUpstreamControl (id : Nat) (payload : String)
  | forwardAudio (id : Nat)
  | closeUpstream (id : Nat)
  | scheduleDrainTimer
  deriving DecidableEq

/-- JavaScript `value || dflt` on the optional `language` field: a
missing field or the empty string is falsy and yields the default. -/
def jsOrDefault (language : Option String) (dflt : String) : String :=
  match language with
  | some l => if l = "" then dflt else l
  | none => dflt

/-- A character the JavaScript `String.prototype.trim` removes (the
ASCII whitespace subset, which covers the fragments the recognition
service produces). -/
def isJsWhitespace (c : Char) : Bool :=
  c = ' ' || c = '\t' || c = '\n' || c = '\r'

/-- JavaScript `s.trim()`: leading and trailing whitespace removed. -/
def jsTrim (s : String) : String :=
  String.mk (((s.data.dropWhile isJsWhitespace).reverse.dropWhile isJsWhitespace).reverse)

/-- The transcript update performed by the Deepgram message handler
(lines 71 to 81 of the source): nothing happens unless the fragment is
non-blank; a final and speech-final fragment is appended newline-joined,
a final but not speech-final fragment is appended space-joined, an
interim fragment leaves the accumulated transcript unchanged. -/
def updateTranscript (fullTranscript transcript : String) (isFinal speechFinal : Bool) :
    String :=
  if jsTrim transcript = "" then fullTranscript
  else if isFinal then
    if speechFinal then
      fullTranscript ++ (if fullTranscript ≠ "" then "\n" else "") ++ transcript
    else
      fullTranscript ++ (if fullTranscript ≠ "" then " " else "") ++ transcript
  else fullTranscript

/-- Whether the `deepgramWs` variable holds a socket whose `readyState`
is `OPEN` — the guard the handler uses before every upstream send or
close. -/
def isUpstreamOpen (s : Session) : Bool :=
  match s.deepgramWs with
  | some u => u.readyState = ReadyState.OPEN
  | none => false

/-- One event applied to the connection handler, returning the new
closure state and the ordered list of actions performed, translated
branch by branch from the source handler. -/
def step (s : Session) : Event → Session × List Action
  | .clientText none => (s, [])
  | .clientText (some (.start language)) =>
      let lang := jsOrDefault language "en"
      ({ deepgramWs := some ⟨s.nextId, .CONNECTING⟩, fullTranscript := "",
         nextId := s.nextId + 1 },
       [.openUpstream s.nextId lang])
  | .clientText (some .stop) =>
      let pre : List Action :=
        match s.deepgramWs with
        | some u =>
            if u.readyState = .OPEN then
              [.sendUpstreamControl u.id "CloseStream", .scheduleDrainTimer]
            else []
        | none => []
      (s, pre ++ [.sendClient (.stopped s.fullTranscript)])
  | .clientText (some .other) => (s, [])
  | .clientBinary =>
      match s.deepgramWs with
      | some u => if u.readyState = .OPEN then (s, [.forwardAudio u.id]) else (s, [])
      | none => (s, [])
  | .clientClose =>
      match s.deepgramWs with
      | some u =>
          if u.readyState = .OPEN then
            ({ s with deepgramWs := some { u with readyState := .CLOSING } },
             [.closeUpstream u.id])
          else (s, [])
      | none => (s, [])
  | .clientError =>
      match s.deepgramWs with
      | some u =>
          if u.readyState = .OPEN then
            ({ s with deepgramWs := some { u with readyState := .CLOSING } },
             [.closeUpstream u.id])
          else (s, [])
      | none => (s, [])
  | .dgOpen =>
      match s.deepgramWs with
      | some u =>
          if u.readyState = .CONNECTING then
            ({ s with deepgramWs := some { u with readyState := .OPEN } },
             [.sendClient .ready])
          else (s, [])
      | none => (s, [])
  | .dgResult transcript isFinal speechFinal =>
      if jsTrim transcript = "" then (s, [])
      else
        let newFull := updateTranscript s.fullTranscript transcript isFinal speechFinal
        ({ s with fullTranscript := newFull },
         [.sendClient (.transcriptMsg transcript isFinal speechFinal newFull)])
  | .dgError message =>
      (s, [.sendClient (.errorMsg ("Transcription service error: " ++ message))])
  | .dgClose =>
      match s.deepgramWs with
      | some u => ({ s with deepgramWs := some { u with readyState := .CLOSED } }, [])
      | none => (s, [])
  | .drainTimer =>
      match s.deepgramWs with
      | some u =>
          if u.readyState = .OPEN then
            ({ s with deepgramWs := some { u with readyState := .CLOSING } },
             [.closeUpstream u.id])
          else (s, [])
      | none => (s, [])

/-- Run the handler over a list of events, concatenating the actions. -/
def run (s : Session) : List Event → Session × List Action
  | [] => (s, [])
  | e :: es =>
      let p := step s e
      let q := run p.1 es
      (q.1, p.2 ++ q.2)

/-- Project the messages sent to the client out of an action list. -/
def clientMsgsOf (as : List Action) : List OutMsg :=
  as.filterMap fun a =>
    match a with
    | .sendClient m => some m
    | _ => none

/-- The client-facing message trace of a whole event sequence, starting
from a fresh connection. -/
def clientMsgs (es : List Event) : List OutMsg :=
  clientMsgsOf (run initSession es).2

/-- Shorthand for the client sending `{"type":"start","language":...}`. -/
def startEvent (language : Option String) : Event := .clientText (some (.start language))

/-- Shorthand for the client sending `{"type":"stop"}`. -/
def stopEvent : Event := .clientText (some .stop)

/-- One recognition event as the Transcript Aggregator sees it: the
fragment text and the two flags. -/
structure RecEvent where
  transcript : String
  isFinal : Bool
  speechFinal : Bool
  deriving DecidableEq

/-- Folding the transcript update of the Deepgram message handler over a
sequence of recognition events, starting from a given accumulated
transcript. -/
def aggregateFrom (fullTranscript : String) (es : List RecEvent) : String :=
  es.foldl (fun full e => updateTranscript full e.transcript e.isFinal e.speechFinal) fullTranscript

/-- The canonical transcript produced by a fresh aggregator from a
sequence of recognition events. -/
def aggregate (es : List RecEvent) : String := aggregateFrom "" es

/-- A big-step run relation for the aggregator: `AggRunFrom full es out`
holds when consuming the events `es` one at a time starting from the
accumulated transcript `full` can end with transcript `out`.  Used to
state that the aggregation is deterministic. -/
inductive AggRunFrom : String → List RecEvent → String → Prop
  | done (full : String) : AggRunFrom full [] full
  | next (full : String) (e : RecEvent) (es : List RecEvent) (out : String) :
      AggRunFrom (updateTranscript full e.transcript e.isFinal e.speechFinal) es out →
      AggRunFrom full (e :: es) out

/-- The ids of the upstream sockets an action list creates. -/
def openIdsOf (as : List Action) : List Nat :=
  as.filterMap fun a =>
    match a with
    | .openUpstream i _ => some i
    | _ => none

/-- The ids of the upstream sockets closed while handling one event:
those the handler itself closes, plus the current socket when the event
is the upstream side closing. -/
def closeIdsOf (s : Session) (e : Event) (as : List Action) : List Nat :=
  (as.filterMap fun a =>
    match a with
    | .closeUpstream i => some i
    | _ => none) ++
  (match e, s.deepgramWs with
   | .dgClose, some u => [u.id]
   | _, _ => [])

/-- Tracks which upstream sockets are alive (created and not yet closed
by either side) across a run of the handler. -/
def liveTrace (s : Session) (live : List Nat) : List Event → List Nat
  | [] => live
  | e :: es =>
      let p := step s e
      liveTrace p.1 (((live ++ openIdsOf p.2).filter
        fun i => !(closeIdsOf s e p.2).contains i)) es

/-- The upstream sockets still alive after running a fresh connection
through a sequence of events. -/
def liveUpstreams (es : List Event) : List Nat := liveTrace initSession [] es

/-- True for the event that carries the client control message `stop`. -/
def isStopEvent : Event → Bool
  | .clientText (some .stop) => true
  | _ => false

/-- How many audio frames an action list forwards upstream. -/
def countForwards (as : List Action) : Nat :=
  (as.filter fun a =>
    match a with
    | .forwardAudio _ => true
    | _ => false).length

/-- The number of audio frames forwarded upstream by the events that
follow the first `stop` control message of the sequence. -/
def audioWritesAfterStop (s : Session) : List Event → Nat
  | [] => 0
  | e :: es =>
      let p := step s e
      if isStopEvent e then countForwards (run p.1 es).2
      else audioWritesAfterStop p.1 es

/-! Helper lemmas shared by the claim theorems. -/

theorem run_append (s : Session) (es fs : List Event) :
    run s (es ++ fs) =
      ((run (run s es).1 fs).1, (run s es).2 ++ (run (run s es).1 fs).2) := by
  induction es generalizing s with
  | nil => simp [run]
  | cons e es ih => simp [run, ih, List.append_assoc]

theorem clientMsgsOf_append (as bs : List Action) :
    clientMsgsOf (as ++ bs) = clientMsgsOf as ++ clientMsgsOf bs := by
  simp [clientMsgsOf]

theorem stop_actions (s : Session) :
    clientMsgsOf (step s stopEvent).2 = [.stopped s.fullTranscript] ∧
      (step s stopEvent).1 = s := by
  cases h : s.deepgramWs with
  | none => simp [step, stopEvent, h, clientMsgsOf]
  | some u =>
      cases hr : u.readyState <;> simp [step, stopEvent, h, hr, clientMsgsOf]

theorem aggRunFrom_foldl : ∀ (es : List RecEvent) (full : String),
    AggRunFrom full es (aggregateFrom full es)
  | [], full => AggRunFrom.done full
  | e :: es, full => AggRunFrom.next full e es _ (aggRunFrom_foldl es _)

theorem aggRunFrom_eq {full : String} {es : List RecEvent} {out : String}
    (h : AggRunFrom full es out) : out = aggregateFrom full es := by
  induction h with
  | done full => rfl
  | next full e es out _ ih => simpa [aggregateFrom] using ih

theorem updateTranscript_extends (full t : String) (f sf : Bool) :
    ∃ suffix, updateTranscript full t f sf = full ++ suffix := by
  unfold updateTranscript
  split
  · exact ⟨"", (String.append_empty full).symm⟩
  · split
    · split
      · exact ⟨(if full ≠ "" then "\n" else "") ++ t, String.append_assoc ..⟩
      · exact ⟨(if full ≠ "" then " " else "") ++ t, String.append_assoc ..⟩
    · exact ⟨"", (String.append_empty full).symm⟩

theorem aggregateFrom_extends (es : List RecEvent) : ∀ full : String,
    ∃ suffix, aggregateFrom full es = full ++ suffix := by
  induction es with
  | nil => exact fun full => ⟨"", (String.append_empty full).symm⟩
  | cons e es ih =>
      intro full
      obtain ⟨x, hx⟩ := updateTranscript_extends full e.transcript e.isFinal e.speechFinal
      obtain ⟨y, hy⟩ := ih (updateTranscript full e.transcript e.isFinal e.speechFinal)
      exact ⟨x ++ y, by
        simpa [aggregateFrom, hx, String.append_assoc] using hy⟩

/-! Claim theorems. -/

/-- C3 counterexample: applying the two events of the claim, the
fragment `"help today"` with `isFinal = true, speechFinal = true` is
appended newline-joined, so the canonical transcript is
`"I need\nhelp today"`, not the `"I need help today"` the claim
predicts. -/
theorem C3_counterexample :
    aggregate [⟨"I need", true, false⟩, ⟨"help today", true, true⟩] = "I need\nhelp today" ∧
      "I need\nhelp today" ≠ ("I need help today" : String) := by
  constructor
  · rfl
  · decide

/-- C3 (amended): for a non-blank fragment the aggregator leaves the
canonical transcript unchanged on interim events, appends newline-joined
when the event is final and speech-final, and appends space-joined when
it is final but not speech-final; hence the events
`("I need", final, not speechFinal)` then `("help today", final,
speechFinal)` yield `"I need\nhelp today"`, while `"I need help today"`
arises when the second event is final but not speech-final. -/
theorem C3_aggregator_rules (full t : String) (h : jsTrim t ≠ "") :
    updateTranscript full t false false = full ∧
      updateTranscript full t false true = full ∧
      updateTranscript full t true true =
        full ++ (if full ≠ "" then "\n" else "") ++ t ∧
      updateTranscript full t true false =
        full ++ (if full ≠ "" then " " else "") ++ t ∧
      aggregate [⟨"I need", true, false⟩, ⟨"help today", true, true⟩] =
        "I need\nhelp today" ∧
      aggregate [⟨"I need", true, false⟩, ⟨"help today", true, false⟩] =
        "I need help today" := by
  refine ⟨?_, ?_, ?_, ?_, by decide, by decide⟩ <;> simp [updateTranscript, h]

/-- Witness for C3: the rules evaluated at `full = "abc"`, `t = "xy"`. -/
theorem C3_witness :
    updateTranscript "abc" "xy" false false = "abc" ∧
      updateTranscript "abc" "xy" false true = "abc" ∧
      updateTranscript "abc" "xy" true true =
        "abc" ++ (if "abc" ≠ "" then "\n" else "") ++ "xy" ∧
      updateTranscript "abc" "xy" true false =
        "abc" ++ (if "abc" ≠ "" then " " else "") ++ "xy" ∧
      aggregate [⟨"I need", true, false⟩, ⟨"help today", true, true⟩] =
        "I need\nhelp today" ∧
      aggregate [⟨"I need", true, false⟩, ⟨"help today", true, false⟩] =
        "I need help today" :=
  C3_aggregator_rules "abc" "xy" (by decide)

/-- C4: the aggregation is a deterministic pure fold — any two runs of
the aggregator over the same ordered event sequence from a fresh state
produce the same canonical transcript, and that transcript is the fold
`aggregate`. -/
theorem C4_deterministic_aggregation (es : List RecEvent) (t₁ t₂ : String)
    (h₁ : AggRunFrom "" es t₁) (h₂ : AggRunFrom "" es t₂) :
    t₁ = t₂ ∧ t₁ = aggregate es := by
  have e₁ := aggRunFrom_eq h₁
  have e₂ := aggRunFrom_eq h₂
  exact ⟨e₁.trans e₂.symm, e₁⟩

/-- Witness for C4: two runs over a concrete one-event sequence. -/
theorem C4_witness :
    aggregate [⟨"hi", true, true⟩] = aggregate [⟨"hi", true, true⟩] ∧
      aggregate [⟨"hi", true, true⟩] = aggregate [⟨"hi", true, true⟩] :=
  C4_deterministic_aggregation [⟨"hi", true, true⟩] _ _
    (aggRunFrom_foldl [⟨"hi", true, true⟩] "") (aggRunFrom_foldl [⟨"hi", true, true⟩] "")

/-- C5: recognition events never shorten the canonical transcript — a
single `dgResult` event leaves the previous `fullTranscript` a prefix of
the new one, and folding any sequence of recognition events over the
aggregator only extends the accumulated transcript. -/
theorem C5_monotonic_transcript :
    (∀ (s : Session) (t : String) (f sf : Bool),
        ∃ suffix, ((step s (.dgResult t f sf)).1).fullTranscript =
          s.fullTranscript ++ suffix) ∧
      (∀ (full : String) (es : List RecEvent),
        ∃ suffix, aggregateFrom full es = full ++ suffix) := by
  constructor
  · intro s t f sf
    by_cases h : jsTrim t = ""
    · exact ⟨"", by simp [step, h, String.append_empty]⟩
    · obtain ⟨x, hx⟩ := updateTranscript_extends s.fullTranscript t f sf
      exact ⟨x, by simp [step, h, hx]⟩
  · exact fun full es => aggregateFrom_extends es full

/-- C1 counterexample: in the trace `start`, upstream ready, `stop`,
then one binary frame, the frame arriving after the `stop` was processed
is still forwarded upstream (the upstream socket stays `OPEN` through
the 1500 ms drain window), so the upstream receives one audio write
after the end-of-stream signal, not zero. -/
theorem C1_counterexample :
    audioWritesAfterStop initSession
        [startEvent (some "en"), .dgOpen, stopEvent, .clientBinary] ≠ 0 ∧
      audioWritesAfterStop initSession
        [startEvent (some "en"), .dgOpen, stopEvent, .clientBinary] = 1 := by
  decide

/-- C1 (amended): a binary frame is forwarded upstream exactly when the
`deepgramWs` variable holds a socket in state `OPEN`; processing `stop`
leaves the socket `OPEN` during the drain window, so frames received
then are still forwarded, and no frame is forwarded once the socket has
left the `OPEN` state (after the drain timer close, an upstream close,
or a client disconnect). -/
theorem C1_no_forward_when_upstream_not_open (s : Session)
    (h : isUpstreamOpen s = false) : step s .clientBinary = (s, []) := by
  cases hd : s.deepgramWs with
  | none => simp [step, hd]
  | some u =>
      have hu : ¬ u.readyState = ReadyState.OPEN := by
        simpa [isUpstreamOpen, hd] using h
      simp [step, hd, hu]

/-- Witness for C1: a session whose upstream socket is `CLOSING` does
not forward a binary frame. -/
theorem C1_witness :
    step ⟨some ⟨0, .CLOSING⟩, "", 1⟩ .clientBinary = (⟨some ⟨0, .CLOSING⟩, "", 1⟩, []) :=
  C1_no_forward_when_upstream_not_open ⟨some ⟨0, .CLOSING⟩, "", 1⟩ rfl

/-- C2 counterexample: in the trace `start`, upstream ready, `stop`,
then a trailing recognition result, the client receives a `transcript`
message after the `stopped` message — `stopped` is not the last
client-facing message. -/
theorem C2_counterexample :
    OutMsg.stopped "" ∈
        clientMsgs [startEvent (some "en"), .dgOpen, stopEvent, .dgResult "hi" true true] ∧
      (clientMsgs
          [startEvent (some "en"), .dgOpen, stopEvent, .dgResult "hi" true true]).getLast? =
        some (.transcriptMsg "hi" true true "hi") := by
  decide

/-- C2 (amended): every processed `stop` immediately emits a `stopped`
message, so when a session ends with a `stop` the last client-facing
message is `stopped` carrying the accumulated transcript; but events
that arrive after `stop` (trailing recognition results during the drain
window, upstream errors) produce further client messages after
`stopped`, and a session that reaches `start` and then loses the client
channel emits no terminal message at all. -/
theorem C2_stop_message_is_emitted_last (es : List Event) :
    (clientMsgs (es ++ [stopEvent])).getLast? =
      some (.stopped (run initSession es).1.fullTranscript) := by
  have h2 : clientMsgsOf (run (run initSession es).1 [stopEvent]).2 =
      [OutMsg.stopped (run initSession es).1.fullTranscript] := by
    simpa [run] using (stop_actions (run initSession es).1).1
  simp only [clientMsgs, run_append, clientMsgsOf_append, h2]
  exact List.getLast?_concat _

/-- C6 counterexample: when the upstream connection fails while being
established, the handler sends the client an error whose text is
`"Transcription service error: "` followed by the socket error — not
`"transcription service unavailable"` — and performs no teardown: no
`closeUpstream` action is emitted and the session still references the
connecting socket afterwards. -/
theorem C6_counterexample :
    (run initSession [startEvent (some "en"), .dgError "connect ECONNREFUSED"]).2 =
        [.openUpstream 0 "en",
         .sendClient (.errorMsg "Transcription service error: connect ECONNREFUSED")] ∧
      Action.sendClient (.errorMsg "transcription service unavailable") ∉
        (run initSession [startEvent (some "en"), .dgError "connect ECONNREFUSED"]).2 ∧
      Action.closeUpstream 0 ∉
        (run initSession [startEvent (some "en"), .dgError "connect ECONNREFUSED"]).2 ∧
      (run initSession [startEvent (some "en"), .dgError "connect ECONNREFUSED"]).1.deepgramWs =
        some ⟨0, .CONNECTING⟩ := by
  decide

/-- C6 (amended): on an upstream socket error the relay emits exactly
one `error` message to the client, whose text is
`"Transcription service error: "` followed by the underlying cause; it
does not close the upstream handle or change any session state, leaving
teardown to the close event of the socket itself. -/
theorem C6_upstream_error_reporting (s : Session) (m : String) :
    step s (.dgError m) =
      (s, [.sendClient (.errorMsg ("Transcription service error: " ++ m))]) := rfl

/-- C7 counterexample: a `start` whose payload has no `language` field
is not rejected — no `error` message is emitted, the upstream connection
is opened with the default language `"en"`, and the session leaves the
idle state (it now references a connecting upstream socket). -/
theorem C7_counterexample :
    (run initSession [startEvent none]).2 = [.openUpstream 0 "en"] ∧
      clientMsgs [startEvent none] = [] ∧
      (run initSession [startEvent none]).1.deepgramWs = some ⟨0, .CONNECTING⟩ := by
  decide

/-- C7 (amended): a `start` with a missing (or empty) `language` is
accepted, not rejected: the language defaults to `"en"` via the
JavaScript `||` fallback, the upstream connection is opened normally,
the transcript is reset, and no `error` message is produced. -/
theorem C7_missing_language_defaults (s : Session) :
    step s (startEvent none) =
      (⟨some ⟨s.nextId, .CONNECTING⟩, "", s.nextId + 1⟩,
       [.openUpstream s.nextId "en"]) := rfl

/-- C8 counterexample: when the client channel closes while the
upstream socket is still `CONNECTING`, the close handler's
`readyState === OPEN` guard fails, so no `closeUpstream` action is
performed and the pending upstream connection is left unreleased. -/
theorem C8_counterexample :
    (run initSession [startEvent (some "en"), .clientClose]).2 = [.openUpstream 0 "en"] ∧
      (run initSession [startEvent (some "en"), .clientClose]).1.deepgramWs =
        some ⟨0, .CONNECTING⟩ := by
  decide

/-- C8 (amended): on a client close or client error the relay closes
the upstream handle only when its `readyState` is `OPEN`; an upstream
socket in any other state — in particular one still `CONNECTING` — is
not closed and the pending connection is not cancelled. -/
theorem C8_client_close_teardown (s : Session) (u : Upstream)
    (h : s.deepgramWs = some u) :
    (step s .clientClose).2 =
        (if u.readyState = .OPEN then [.closeUpstream u.id] else []) ∧
      (step s .clientError).2 =
        (if u.readyState = .OPEN then [.closeUpstream u.id] else []) := by
  cases hr : u.readyState <;> simp [step, h, hr]

/-- Witness for C8: with an `OPEN` upstream the close action is issued. -/
theorem C8_witness :
    (step ⟨some ⟨0, .OPEN⟩, "", 1⟩ .clientClose).2 =
        (if ReadyState.OPEN = .OPEN then [Action.closeUpstream 0] else []) ∧
      (step ⟨some ⟨0, .OPEN⟩, "", 1⟩ .clientError).2 =
        (if ReadyState.OPEN = .OPEN then [Action.closeUpstream 0] else []) :=
  C8_client_close_teardown ⟨some ⟨0, .OPEN⟩, "", 1⟩ ⟨0, .OPEN⟩ rfl

/-- C9 counterexample: after `start`, upstream ready, then a second
`start`, two upstream sockets are alive at once — the second `start`
overwrites the `deepgramWs` variable without closing the previous
socket, so the session has two live upstream connections. -/
theorem C9_counterexample :
    liveUpstreams [startEvent (some "en"), .dgOpen, startEvent (some "en")] = [0, 1] ∧
      ¬ (liveUpstreams
          [startEvent (some "en"), .dgOpen, startEvent (some "en")]).length ≤ 1 := by
  decide

/-- C9 (amended): the session variable references at most one upstream
socket, but a `start` processed while an upstream socket is already
referenced emits no close for it — it only opens a fresh socket and
overwrites the reference — so previously opened upstream connections
stay alive and more than one can be alive at a time. -/
theorem C9_start_leaks_previous_upstream (s : Session) (u : Upstream)
    (l : Option String) (h : s.deepgramWs = some u) :
    Action.closeUpstream u.id ∉ (step s (startEvent l)).2 ∧
      (step s (startEvent l)).1.deepgramWs = some ⟨s.nextId, .CONNECTING⟩ := by
  simp [step, startEvent]

/-- Witness for C9: a second `start` on a session holding an open
upstream socket issues no close for it. -/
theorem C9_witness :
    Action.closeUpstream 0 ∉ (step ⟨some ⟨0, .OPEN⟩, "", 1⟩ (startEvent none)).2 ∧
      (step ⟨some ⟨0, .OPEN⟩, "", 1⟩ (startEvent none)).1.deepgramWs =
        some ⟨1, .CONNECTING⟩ :=
  C9_start_leaks_previous_upstream ⟨some ⟨0, .OPEN⟩, "", 1⟩ ⟨0, .OPEN⟩ none rfl

/-- C10: a `stop` control message is never rejected: in every session
state it sends the client exactly one `stopped` message carrying the
current accumulated transcript and leaves the session state unchanged;
on a fresh session the carried transcript is the empty string, and two
consecutive `stop` messages produce two `stopped` messages. -/
theorem C10_stop_always_acknowledged : ∀ s : Session,
    clientMsgsOf (step s stopEvent).2 = [.stopped s.fullTranscript] ∧
      (step s stopEvent).1 = s ∧
      clientMsgs [stopEvent] = [.stopped ""] ∧
      clientMsgs [stopEvent, stopEvent] = [.stopped "", .stopped ""] := by
  intro s
  exact ⟨(stop_actions s).1, (stop_actions s).2, by decide, by decide⟩

end DeepgramRelay
